import Mathlib

/-!
Verification of the Agrocorp reference classifier (`map_ref` in `src/app.py`)
and the pivot aggregation (`to_excel_bytes_with_pivot` in `src/app.py`).

Strings are modelled through their character lists.  `map_ref` receives an
arbitrary value and first applies Python's `str`; the inputs exercised by the
program are strings and `None`, so the embedded input type is `Option String`
(`none` plays Python's `None`, which `str` renders as `"None"`).

Line 85 of `src/app.py` (`if s.startswith("NJ") or s.startswith("NJ-") or
s.startswith("NJ ":`) is missing a closing parenthesis and is a Python syntax
error; the embedding repairs it to the evident intent
`if s.startswith("NJ") or s.startswith("NJ-") or s.startswith("NJ "):`.
The syntax error itself is recorded against the totality claim.
-/

/-- Python `str.isspace` characters relevant to `str.strip` (ASCII range). -/
def pyIsSpace (c : Char) : Bool :=
  c = ' ' || c = '\t' || c = '\n' || c = '\r' || c = '\x0b' || c = '\x0c'

/-- Python `str.strip()`: drop leading and trailing whitespace. -/
def pyStrip (l : List Char) : List Char :=
  ((l.dropWhile pyIsSpace).reverse.dropWhile pyIsSpace).reverse

/-- Python `str.upper()` (ASCII range). -/
def pyUpper (l : List Char) : List Char :=
  l.map Char.toUpper

/-- Python `str(x)` on the values the program feeds to `map_ref`:
a string is unchanged, `None` renders as `"None"`. -/
def pyStr : Option String → String
  | none => "None"
  | some s => s

/-- The normalisation `str(x).strip().upper()` from `src/app.py` line 28. -/
def pyNorm (x : Option String) : List Char :=
  pyUpper (pyStrip (pyStr x).toList)

/-- Python substring test `pat in s`. -/
def hasSubstr (pat : List Char) : List Char → Bool
  | [] => pat.isEmpty
  | c :: t => pat.isPrefixOf (c :: t) || hasSubstr pat t

/-- Python `s.isdigit()`: non-empty and every character a decimal digit. -/
def pyIsDigit (l : List Char) : Bool :=
  !l.isEmpty && l.all Char.isDigit

/-- The if-chain of `map_ref` (`src/app.py` lines 30-97) on the normalised
string, in source order: six compound patterns, then PULSES-without-PAYMENT,
`"SGD"`, the two duplicated `"CAD-..."` checks, the all-digits check,
`startswith("RB")`, `startswith("B")`, `"PAYMENT"`, the repaired
`startswith("NJ")` line, `"OILSEEDS"`, `"WHEAT"`, default `""`. -/
def map_ref_core (s : List Char) : String :=
  if hasSubstr "AUD_PULSES".toList s then "AUD Pulses"
  else if hasSubstr "INR_PULSES".toList s then "INR Pulses"
  else if hasSubstr "CAD CANOLA".toList s then "OILSEEDS"
  else if hasSubstr "CAD-CANADA".toList s then "CAD CANADA"
  else if hasSubstr "EUR COTTON".toList s then "COTTON"
  else if hasSubstr "EUR WHEAT".toList s then "WHEAT"
  else if hasSubstr "PULSES".toList s && !hasSubstr "PAYMENT".toList s then "pulses"
  else if hasSubstr "SGD".toList s then "GENERAL"
  else if hasSubstr "CAD-CANADA".toList s then "CAD-CANADA"
  else if hasSubstr "CAD-CANOLA".toList s then "OILSEEDS"
  else if pyIsDigit s && decide (0 < s.length) then "payments"
  else if "RB".toList.isPrefixOf s then "RAHUL"
  else if "B".toList.isPrefixOf s then "NITIN"
  else if hasSubstr "PAYMENT".toList s then "payments"
  else if "NJ".toList.isPrefixOf s || "NJ-".toList.isPrefixOf s || "NJ ".toList.isPrefixOf s
    then "NITIN"
  else if hasSubstr "OILSEEDS".toList s then "oilseeds"
  else if hasSubstr "WHEAT".toList s then "Eur Wheat"
  else ""

/-- `map_ref` from `src/app.py`: normalise, then run the rule chain. -/
def map_ref (x : Option String) : String :=
  map_ref_core (pyNorm x)

/-- Every label a branch of `map_ref` can return. -/
def mapRefLabels : List String :=
  ["AUD Pulses", "INR Pulses", "OILSEEDS", "CAD CANADA", "COTTON", "WHEAT",
   "pulses", "GENERAL", "CAD-CANADA", "payments", "RAHUL", "NITIN",
   "oilseeds", "Eur Wheat", ""]

/-- An aggregation row: (`ref` category, `Currency`, `Amount`).  `Amount` is
numeric in the source (coerced with `pd.to_numeric(...).fillna(0)`); the
spec's aggregation example uses integer amounts, modelled exactly as `Int`. -/
abbrev PivotRow := String × String × Int

/-- Lexicographic comparison of strings by code point, as pandas sorts a
string index. -/
def strLt : List Char → List Char → Bool
  | _, [] => false
  | [], _ :: _ => true
  | a :: as, b :: bs =>
    if a.toNat < b.toNat then true
    else if b.toNat < a.toNat then false
    else strLt as bs

/-- Lexicographic order on the pandas grouping key `(ref, Currency)`. -/
def keyLt (a b : String × String) : Bool :=
  strLt a.1.toList b.1.toList || (a.1 == b.1 && strLt a.2.toList b.2.toList)

/-- Sorted insertion for grouping keys. -/
def insertKey (k : String × String) : List (String × String) → List (String × String)
  | [] => [k]
  | h :: t => if keyLt k h then k :: h :: t else h :: insertKey k t

/-- Insertion sort of grouping keys, as `pivot_table` sorts its index. -/
def sortKeys (ks : List (String × String)) : List (String × String) :=
  ks.foldr insertKey []

/-- Distinct grouping keys of a row list. -/
def dedupKeys : List (String × String) → List (String × String)
  | [] => []
  | k :: t =>
    let r := dedupKeys t
    if r.contains k then r else k :: r

/-- Sum of `Amount` over the rows with grouping key `k`. -/
def groupSum (rows : List PivotRow) (k : String × String) : Int :=
  (rows.filter fun r => r.1 == k.1 && r.2.1 == k.2).foldl (fun a r => a + r.2.2) 0

/-- Sum of `Amount` over all rows. -/
def grandTotal (rows : List PivotRow) : Int :=
  rows.foldl (fun a r => a + r.2.2) 0

/-- The pivot of `to_excel_bytes_with_pivot` (`src/app.py` lines 109-122):
`df.pivot_table(index=["ref", "Currency"], values="Amount", aggfunc="sum",
margins=True, margins_name="Grand Total")` — one row per distinct
`(ref, Currency)` key in key order with the summed amount, followed by the
single margins row `("Grand Total", "")` holding the overall sum. -/
def pivot_table (rows : List PivotRow) : List PivotRow :=
  (sortKeys (dedupKeys (rows.map fun r => (r.1, r.2.1)))).map
    (fun k => (k.1, k.2, groupSum rows k))
  ++ [("Grand Total", "", grandTotal rows)]

/-- The three-row example of the spec's aggregation property. -/
def specRows : List PivotRow :=
  [("pulses", "USD", 100), ("pulses", "USD", 50), ("CAD", "USD", 25)]

/-- Amount of the first pivot row carrying grouping key `k`, if any. -/
def lookupAmt (t : List PivotRow) (k : String × String) : Option Int :=
  (t.find? fun r => r.1 == k.1 && r.2.1 == k.2).map fun r => r.2.2

/-- Characters of a matched pattern all occur in the searched string. -/
theorem mem_of_hasSubstr : ∀ (s pat : List Char), hasSubstr pat s = true → ∀ c ∈ pat, c ∈ s := by
  intro s
  induction s with
  | nil =>
    intro pat h c hc
    unfold hasSubstr at h
    rw [List.isEmpty_iff] at h
    subst h
    simp at hc
  | cons a t ih =>
    intro pat h c hc
    unfold hasSubstr at h
    rw [Bool.or_eq_true] at h
    cases h with
    | inl hp => exact (List.isPrefixOf_iff_prefix.mp hp).subset hc
    | inr hs => exact List.mem_cons_of_mem a (ih pat hs c hc)

/-- A pattern holding a non-digit character never occurs in an all-digit
string. -/
theorem hasSubstr_eq_false_of_digits (s pat : List Char) (c : Char)
    (hc : c ∈ pat) (hcd : c.isDigit = false) (hs : ∀ d ∈ s, d.isDigit = true) :
    hasSubstr pat s = false := by
  cases h : hasSubstr pat s with
  | false => rfl
  | true =>
    have hmem := mem_of_hasSubstr s pat h c hc
    have := hs c hmem
    rw [hcd] at this
    cases this

/-- Both branches of an `if` lie in `l`, so the `if` does. -/
theorem mem_ite {α : Type} {c : Prop} [Decidable c] {a b : α} {l : List α}
    (ha : a ∈ l) (hb : b ∈ l) : (if c then a else b) ∈ l := by
  split
  · exact ha
  · exact hb

/-- Both branches of an `if` differ from `v`, so the `if` does. -/
theorem ne_ite {α : Type} {c : Prop} [Decidable c] {a b v : α}
    (ha : a ≠ v) (hb : b ≠ v) : (if c then a else b) ≠ v := by
  split
  · exact ha
  · exact hb

/-- Whitespace-only input normalises to the empty character list. -/
theorem pyNorm_eq_nil_of_space (x : String) (h : ∀ c ∈ x.toList, pyIsSpace c = true) :
    pyNorm (some x) = [] := by
  unfold pyNorm pyStr pyStrip pyUpper
  rw [List.dropWhile_eq_nil_iff.mpr h]
  simp

/-- Claim C1 (counterexample): the input "AUD_PULSES" contains "PULSES" and
not "PAYMENT" after normalisation, yet `map_ref` returns "AUD Pulses", not
"pulses" — the compound rule `AUD_PULSES` fires first. -/
theorem C1_cex :
    hasSubstr "PULSES".toList (pyNorm (some "AUD_PULSES")) = true ∧
    hasSubstr "PAYMENT".toList (pyNorm (some "AUD_PULSES")) = false ∧
    map_ref (some "AUD_PULSES") = "AUD Pulses" ∧
    map_ref (some "AUD_PULSES") ≠ "pulses" := by
  refine ⟨by decide, by decide, by decide, by decide⟩

/-- Claim C1 (amended): when the normalised input contains "PULSES", does not
contain "PAYMENT", and matches none of the six compound patterns that the
code checks first, `map_ref` returns "pulses". -/
theorem C1_pulses_rule (x : String)
    (h1 : hasSubstr "PULSES".toList (pyNorm (some x)) = true)
    (h2 : hasSubstr "PAYMENT".toList (pyNorm (some x)) = false)
    (n1 : hasSubstr "AUD_PULSES".toList (pyNorm (some x)) = false)
    (n2 : hasSubstr "INR_PULSES".toList (pyNorm (some x)) = false)
    (n3 : hasSubstr "CAD CANOLA".toList (pyNorm (some x)) = false)
    (n4 : hasSubstr "CAD-CANADA".toList (pyNorm (some x)) = false)
    (n5 : hasSubstr "EUR COTTON".toList (pyNorm (some x)) = false)
    (n6 : hasSubstr "EUR WHEAT".toList (pyNorm (some x)) = false) :
    map_ref (some x) = "pulses" := by
  unfold map_ref map_ref_core
  rw [n1, n2, n3, n4, n5, n6, h1, h2]
  simp

/-- Claim C1 (witness): "PULSES CARGO" satisfies the amended hypotheses and
classifies as "pulses". -/
theorem C1_pulses_rule_w : map_ref (some "PULSES CARGO") = "pulses" :=
  C1_pulses_rule "PULSES CARGO" (by decide) (by decide) (by decide) (by decide)
    (by decide) (by decide) (by decide) (by decide)

/-- Claim C2 (counterexample): on "SGD_GENERAL REBATE", `map_ref` returns
"GENERAL", not the spec's "SGD General" — the code's rule 8 matches "SGD"
anywhere and its label is "GENERAL". -/
theorem C2_cex :
    map_ref (some "SGD_GENERAL REBATE") = "GENERAL" ∧
    map_ref (some "SGD_GENERAL REBATE") ≠ "SGD General" := by
  refine ⟨by decide, by decide⟩

/-- Claim C2 (amended): when the normalised input contains "SGD" (so in
particular when it contains "SGD_GENERAL") and matches none of the seven
earlier code rules, `map_ref` returns "GENERAL". -/
theorem C2_sgd_rule (x : String)
    (h8 : hasSubstr "SGD".toList (pyNorm (some x)) = true)
    (n1 : hasSubstr "AUD_PULSES".toList (pyNorm (some x)) = false)
    (n2 : hasSubstr "INR_PULSES".toList (pyNorm (some x)) = false)
    (n3 : hasSubstr "CAD CANOLA".toList (pyNorm (some x)) = false)
    (n4 : hasSubstr "CAD-CANADA".toList (pyNorm (some x)) = false)
    (n5 : hasSubstr "EUR COTTON".toList (pyNorm (some x)) = false)
    (n6 : hasSubstr "EUR WHEAT".toList (pyNorm (some x)) = false)
    (n7 : (hasSubstr "PULSES".toList (pyNorm (some x)) &&
           !hasSubstr "PAYMENT".toList (pyNorm (some x))) = false) :
    map_ref (some x) = "GENERAL" := by
  unfold map_ref map_ref_core
  rw [n1, n2, n3, n4, n5, n6, n7, h8]
  simp

/-- Claim C2 (witness): "SGD_GENERAL REBATE" satisfies the amended
hypotheses and classifies as "GENERAL". -/
theorem C2_sgd_rule_w : map_ref (some "SGD_GENERAL REBATE") = "GENERAL" :=
  C2_sgd_rule "SGD_GENERAL REBATE" (by decide) (by decide) (by decide) (by decide)
    (by decide) (by decide) (by decide) (by decide)

/-- Claim C3: the input "CAD" contains "CAD" after normalisation and matches
neither the pulses rule nor the SGD rule, yet `map_ref` returns "" — the
code has no generic "contains CAD" rule (its comment announces one, but the
guarded conditions are the duplicated "CAD-CANADA"/"CAD-CANOLA" checks). -/
theorem C3_cad_eval :
    hasSubstr "CAD".toList (pyNorm (some "CAD")) = true ∧
    map_ref (some "CAD") = "" := by
  refine ⟨by decide, by decide⟩

/-- Claim C4 (counterexample): on "RBPAYMENT2024", `map_ref` returns
"RAHUL", not the spec's "Rahul" — the code's label casing is "RAHUL". -/
theorem C4_cex :
    map_ref (some "RBPAYMENT2024") = "RAHUL" ∧
    map_ref (some "RBPAYMENT2024") ≠ "Rahul" := by
  refine ⟨by decide, by decide⟩

/-- Claim C4 (amended): "RBPAYMENT2024" contains "PAYMENT", yet the RB rule
(in the code a `startswith("RB")` check) fires before the generic "PAYMENT"
rule and `map_ref` returns "RAHUL". -/
theorem C4_rb_priority :
    hasSubstr "PAYMENT".toList (pyNorm (some "RBPAYMENT2024")) = true ∧
    map_ref (some "RBPAYMENT2024") = "RAHUL" := by
  refine ⟨by decide, by decide⟩

/-- Claim C5: when the normalised input is non-empty and consists only of
decimal digits, `map_ref` returns "payments"; every rule ahead of the
numeric check tests a pattern holding a letter, so none can fire. -/
theorem C5_digits_rule (x : String)
    (h1 : pyNorm (some x) ≠ [])
    (h2 : ∀ c ∈ pyNorm (some x), c.isDigit = true) :
    map_ref (some x) = "payments" := by
  have n1 := hasSubstr_eq_false_of_digits (pyNorm (some x)) "AUD_PULSES".toList 'A'
    (by decide) (by decide) h2
  have n2 := hasSubstr_eq_false_of_digits (pyNorm (some x)) "INR_PULSES".toList 'I'
    (by decide) (by decide) h2
  have n3 := hasSubstr_eq_false_of_digits (pyNorm (some x)) "CAD CANOLA".toList 'C'
    (by decide) (by decide) h2
  have n4 := hasSubstr_eq_false_of_digits (pyNorm (some x)) "CAD-CANADA".toList 'C'
    (by decide) (by decide) h2
  have n5 := hasSubstr_eq_false_of_digits (pyNorm (some x)) "EUR COTTON".toList 'E'
    (by decide) (by decide) h2
  have n6 := hasSubstr_eq_false_of_digits (pyNorm (some x)) "EUR WHEAT".toList 'E'
    (by decide) (by decide) h2
  have n7 := hasSubstr_eq_false_of_digits (pyNorm (some x)) "PULSES".toList 'P'
    (by decide) (by decide) h2
  have n8 := hasSubstr_eq_false_of_digits (pyNorm (some x)) "SGD".toList 'S'
    (by decide) (by decide) h2
  have n10 := hasSubstr_eq_false_of_digits (pyNorm (some x)) "CAD-CANOLA".toList 'C'
    (by decide) (by decide) h2
  have hd : pyIsDigit (pyNorm (some x)) = true := by
    unfold pyIsDigit
    rw [List.isEmpty_eq_false.mpr h1, List.all_eq_true.mpr h2]
    rfl
  have hl : decide (0 < (pyNorm (some x)).length) = true := by
    simp [List.length_pos, h1]
  unfold map_ref map_ref_core
  rw [n1, n2, n3, n4, n5, n6, n7, n8, n10, hd, hl]
  simp

/-- Claim C5 (witness): "123456" is all digits and classifies as
"payments". -/
theorem C5_digits_rule_w : map_ref (some "123456") = "payments" :=
  C5_digits_rule "123456" (by decide) (by decide)

/-- Claim C6: when the normalised input contains both "PULSES" and
"PAYMENT", `map_ref` never returns "pulses" — the pulses rule's negative
clause blocks the only branch with that label. -/
theorem C6_no_pulses (x : String)
    (_h1 : hasSubstr "PULSES".toList (pyNorm (some x)) = true)
    (h2 : hasSubstr "PAYMENT".toList (pyNorm (some x)) = true) :
    map_ref (some x) ≠ "pulses" := by
  unfold map_ref map_ref_core
  rw [h2]
  simp only [Bool.not_true, Bool.and_false]
  refine ne_ite (by decide) ?_
  refine ne_ite (by decide) ?_
  refine ne_ite (by decide) ?_
  refine ne_ite (by decide) ?_
  refine ne_ite (by decide) ?_
  refine ne_ite (by decide) ?_
  rw [if_neg (by decide)]
  refine ne_ite (by decide) ?_
  refine ne_ite (by decide) ?_
  refine ne_ite (by decide) ?_
  refine ne_ite (by decide) ?_
  refine ne_ite (by decide) ?_
  refine ne_ite (by decide) ?_
  refine ne_ite (by decide) ?_
  refine ne_ite (by decide) ?_
  refine ne_ite (by decide) ?_
  refine ne_ite (by decide) ?_
  decide

/-- Claim C6 (witness): "PULSES PAYMENT" contains both patterns and
classifies as "payments", not "pulses". -/
theorem C6_no_pulses_w :
    map_ref (some "PULSES PAYMENT") = "payments" ∧
    map_ref (some "PULSES PAYMENT") ≠ "pulses" :=
  ⟨by decide, C6_no_pulses "PULSES PAYMENT" (by decide) (by decide)⟩

/-- Claim C7: whitespace-only (in particular empty) input normalises to the
empty string and falls through every rule to the default "", and `None`
input also classifies as "" (it stringifies to "NONE", which no rule
matches). -/
theorem C7_empty_default (x : String)
    (h : ∀ c ∈ x.toList, pyIsSpace c = true) :
    pyNorm (some x) = [] ∧ map_ref (some x) = "" ∧
    map_ref (some "") = "" ∧ map_ref none = "" := by
  have hn := pyNorm_eq_nil_of_space x h
  refine ⟨hn, ?_, by decide, by decide⟩
  unfold map_ref
  rw [hn]
  decide

/-- Claim C7 (witness): a blank string satisfies the hypothesis and every
conjunct holds. -/
theorem C7_empty_default_w :
    pyNorm (some " ") = [] ∧ map_ref (some " ") = "" ∧
    map_ref (some "") = "" ∧ map_ref none = "" :=
  C7_empty_default " " (by decide)

/-- Claim C8: the modelled `map_ref` is total — on every input (including
`None`) it returns one of the fifteen branch labels or the default "".
The committed source itself, however, cannot run: line 85 is a syntax
error, which is recorded with the claim. -/
theorem C8_total_labels (x : Option String) : map_ref x ∈ mapRefLabels := by
  unfold map_ref map_ref_core
  repeat
    refine mem_ite (by decide) ?_
  decide

/-- Claim C9 (counterexample): on the spec's three example rows the pivot
holds exactly three rows — the two grouped sums and the single margins row
"Grand Total" — and no per-category subtotal row. -/
theorem C9_cex :
    pivot_table specRows =
      [("CAD", "USD", 25), ("pulses", "USD", 150), ("Grand Total", "", 175)] ∧
    (pivot_table specRows).length = 3 := by
  refine ⟨by rfl, by rfl⟩

/-- Claim C9 (amended): the pivot groups by (Category, Currency) and sums
Amount, yielding pulses/USD = 150 and CAD/USD = 25, and appends one
grand-total row summing everything to 175; no per-category subtotal rows
are produced. -/
theorem C9_pivot_totals :
    lookupAmt (pivot_table specRows) ("pulses", "USD") = some 150 ∧
    lookupAmt (pivot_table specRows) ("CAD", "USD") = some 25 ∧
    lookupAmt (pivot_table specRows) ("Grand Total", "") = some 175 := by
  refine ⟨by rfl, by rfl, by rfl⟩

/-- Claim C10: whenever the normalised input contains "AUD_PULSES" the very
first rule fires and `map_ref` returns "AUD Pulses", whatever else the
input contains. -/
theorem C10_aud_pulses_first (x : String)
    (h : hasSubstr "AUD_PULSES".toList (pyNorm (some x)) = true) :
    map_ref (some x) = "AUD Pulses" := by
  unfold map_ref map_ref_core
  rw [h]
  simp

/-- Claim C10 (witness): an input holding "AUD_PULSES" alongside "PAYMENT"
still classifies as "AUD Pulses". -/
theorem C10_aud_pulses_first_w : map_ref (some "XAUD_PULSES PAYMENT") = "AUD Pulses" :=
  C10_aud_pulses_first "XAUD_PULSES PAYMENT" (by decide)
